import Mathlib

/-
Verification of the BiomarkerKB escalating fetch client (`bkb_client.py`).

The embedding models the client shallowly:
* a result table (`pandas.DataFrame`) is a list of rows, each row a JSON value;
* the network is a deterministic oracle: for each round index and size hint it
  yields the raw responses of that round, from which the outcome of
  `create_list` / `download_list` is computed;
* the `while True` loop of `download_with_size_escalation` is a well-founded
  recursion on `(max_attempts - attempts)`, since the only repeating path
  increments `attempts` and is guarded by `attempts >= max_attempts`.

Line 169 of `bkb_client.py` carries stray shell text pasted after `try:`;
the model follows the evident intent, a plain `try:` block.
-/

namespace BKB

/-- JSON values, as far as the client inspects them: scalars, objects
(row-mappings) and arrays.  Scalar payloads are abstracted to integers. -/
inductive Json where
  | scalar (n : Int)
  | obj (fields : List (String × Int))
  | arr (elems : List Json)

/-- A result table: the ordered rows of a `pandas.DataFrame`. -/
abbrev Table := List Json

/-- The raw outcome of the list-creation POST, as `create_list` sees it:
a transport/HTTP failure, a non-JSON body, or a JSON body whose `list_id`
field is absent (`none`) or holds a string (the empty string is falsy in
Python, matching `if not list_id`). -/
inductive CreateResponse where
  | transportError
  | nonJsonBody
  | jsonBody (list_id : Option String)

/-- `create_list` (bkb_client.py lines 41-60): raises `BiomarkerKBError`
(modelled as `Except.error ()`) on transport failure, non-JSON body, or a
falsy `list_id`; otherwise returns the identifier string. -/
def create_list : CreateResponse → Except Unit String
  | .transportError => .error ()
  | .nonJsonBody => .error ()
  | .jsonBody none => .error ()
  | .jsonBody (some s) => if s = "" then .error () else .ok s

/-- How `pandas.read_csv` fares on the CSV body (`_parse_csv`, lines 63-74):
`EmptyDataError` (mapped to an empty frame), a successful parse, or a
`ParserError`/`UnicodeDecodeError` (re-raised as `BiomarkerKBError`). -/
inductive CsvParse where
  | emptyData
  | parsed (df : Table)
  | parseError

/-- How `json.loads` fares on the JSON-fallback body: a decode error, or a
parsed JSON value. -/
inductive JsonFallback where
  | decodeError
  | value (v : Json)

/-- The raw responses one download round can consume (`download_list`,
lines 77-131): the CSV request's transport status and body (kept as its
`splitlines()` line list), the CSV parse outcome, and the JSON-fallback
request's transport status and parse outcome. -/
structure DownloadInput where
  transportOk : Bool
  bodyLines : List String
  csvParse : CsvParse
  jsonTransportOk : Bool
  jsonFallback : JsonFallback

/-- `download_list` (lines 77-131).  Transport failure raises; an empty body
or a body of at most one line (`not response.text or len(splitlines()) <= 1`)
yields an empty frame; otherwise the CSV parse is tried, and on parse failure
the JSON fallback runs: transport failure or decode failure raises, a JSON
list is converted to a frame of its elements (`isinstance(parsed, list)`),
and any other JSON shape raises. -/
def download_list (d : DownloadInput) : Except Unit Table :=
  if d.transportOk = false then .error ()
  else if d.bodyLines.length ≤ 1 then .ok []
  else
    match d.csvParse with
    | .emptyData => .ok []
    | .parsed df => .ok df
    | .parseError =>
      if d.jsonTransportOk = false then .error ()
      else
        match d.jsonFallback with
        | .decodeError => .error ()
        | .value (Json.arr elems) => .ok elems
        | .value _ => .error ()

/-- A row that contributes no columns to `pd.DataFrame`: an empty mapping
(a record with no keys) or an empty list.  A scalar row always yields one
column. -/
def rowNoColumns : Json → Bool
  | .obj [] => true
  | .arr [] => true
  | _ => false

/-- pandas `df.empty`: the frame has no rows, or has rows but no columns —
the latter arises when every row contributes no columns, e.g.
`pd.DataFrame([{},{}])` has two rows, zero columns and `empty = True`. -/
def frame_empty (df : Table) : Bool :=
  df.length = 0 || df.all rowNoColumns

/-- `ensure_complete_results` (lines 134-143), modelled as the predicate
"a truncation warning is printed": no hint, or `df.empty` (`frame_empty`),
warns nothing; otherwise a row count reaching the hint warns. -/
def ensure_complete_results (df : Table) (page_hint : Option Int) : Bool :=
  match page_hint with
  | none => false
  | some hint => if frame_empty df then false else decide (hint ≤ (df.length : Int))

/-- What one creation+download round of the escalation loop observes:
`create_list` raised, `download_list` raised, or a table was obtained. -/
inductive RoundOutcome where
  | createFail
  | downloadFail
  | ok (df : Table)

/-- The raw responses of one round: what the creation POST returned and what
the download requests returned. -/
structure RoundResponses where
  create : CreateResponse
  download : DownloadInput

/-- One round of the loop body at the error level (lines 168-180): the
`except BiomarkerKBError` handlers around `create_list` and `download_list`. -/
def runRound (r : RoundResponses) : RoundOutcome :=
  match create_list r.create with
  | .error _ => .createFail
  | .ok _ =>
    match download_list r.download with
    | .error _ => .downloadFail
    | .ok df => .ok df

/-- The `while True` loop of `download_with_size_escalation`
(lines 164-211), one call per iteration.  `server round hint` is the outcome
of round `round` when the payload factory was given size hint `hint`
(`payload_factory(attempt_size)`).  The first component is the returned
value (`None` on a caught error); the second counts the creation+download
rounds executed — instrumentation for round-count properties, it mirrors the
branch structure exactly.  Branches in source order:
`attempt_size is None or row_count == 0` → return df;
`row_count < attempt_size` → return df;
`previous_row_count == row_count` → return df (anti-thrash);
`attempts += 1; attempts >= max_attempts` → return df (budget);
else double the size, remember the row count, loop. -/
def escalate (server : Nat → Option Int → RoundOutcome) (max_attempts : Int)
    (round : Nat) (attempt_size : Option Int) (attempts : Int)
    (previous_row_count : Option Int) : Option Table × Nat :=
  match server round attempt_size with
  | .createFail => (none, 1)
  | .downloadFail => (none, 1)
  | .ok df =>
    let row_count : Int := df.length
    match attempt_size with
    | none => (some df, 1)
    | some size =>
      if row_count = 0 then (some df, 1)
      else if row_count < size then (some df, 1)
      else if previous_row_count = some row_count then (some df, 1)
      else if max_attempts ≤ attempts + 1 then (some df, 1)
      else
        let rest := escalate server max_attempts (round + 1) (some (size * 2))
          (attempts + 1) (some row_count)
        (rest.1, rest.2 + 1)
termination_by (max_attempts - attempts).toNat
decreasing_by simp_wf; omega

/-- `download_with_size_escalation` (lines 150-211): run the loop from the
initial state `attempt_size = initial_size`, `attempts = 0`,
`previous_row_count = None`, and return its value. -/
def download_with_size_escalation (server : Nat → Option Int → RoundOutcome)
    (initial_size : Option Int) (max_attempts : Int) : Option Table :=
  (escalate server max_attempts 0 initial_size 0 none).1

/-- The number of creation+download rounds the loop executes. -/
def escalationRounds (server : Nat → Option Int → RoundOutcome)
    (initial_size : Option Int) (max_attempts : Int) : Nat :=
  (escalate server max_attempts 0 initial_size 0 none).2

/-- The loop driven by raw per-round responses, with `create_list` and
`download_list` interpreted by `runRound`. -/
def download_with_size_escalation_raw (responses : Nat → Option Int → RoundResponses)
    (initial_size : Option Int) (max_attempts : Int) : Option Table :=
  download_with_size_escalation (fun r h => runRound (responses r h)) initial_size
    max_attempts

/-- Modelled from the spec: a JSON value of "list-of-records shape
(a sequence of row-mappings)" — an array whose elements are all objects.
Used to compare the spec's wording against the code's `isinstance(parsed, list)`
check. -/
def isListOfRecords : Json → Bool
  | .arr elems =>
    elems.all fun e =>
      match e with
      | .obj _ => true
      | _ => false
  | _ => false

/-- The MUC16 end-to-end scenario server: round 1 yields a 50,000-row table,
every later round yields a distinct 50,000-row table. -/
def muc16Server : Nat → Option Int → RoundOutcome := fun r _ =>
  if r = 0 then .ok (List.replicate 50000 (Json.scalar 0))
  else .ok (List.replicate 50000 (Json.scalar 1))

end BKB

namespace BKB

theorem escalate_createFail (server : Nat → Option Int → RoundOutcome)
    (maxA : Int) (round : Nat) (sz : Option Int) (att : Int) (prev : Option Int)
    (h : server round sz = .createFail) :
    escalate server maxA round sz att prev = (none, 1) := by
  rw [escalate, h]

theorem escalate_downloadFail (server : Nat → Option Int → RoundOutcome)
    (maxA : Int) (round : Nat) (sz : Option Int) (att : Int) (prev : Option Int)
    (h : server round sz = .downloadFail) :
    escalate server maxA round sz att prev = (none, 1) := by
  rw [escalate, h]

theorem escalate_noSize (server : Nat → Option Int → RoundOutcome)
    (maxA : Int) (round : Nat) (att : Int) (prev : Option Int) (df : Table)
    (h : server round none = .ok df) :
    escalate server maxA round none att prev = (some df, 1) := by
  rw [escalate, h]

theorem escalate_complete (server : Nat → Option Int → RoundOutcome)
    (maxA : Int) (round : Nat) (s att : Int) (prev : Option Int) (df : Table)
    (h : server round (some s) = .ok df)
    (hc : (df.length : Int) = 0 ∨ (df.length : Int) < s) :
    escalate server maxA round (some s) att prev = (some df, 1) := by
  rw [escalate, h]
  rcases hc with hc | hc
  · simp [hc]
  · rcases eq_or_ne ((df.length : Int)) 0 with h0 | h0
    · simp [h0]
    · simp [h0, hc]

theorem escalate_antithrash (server : Nat → Option Int → RoundOutcome)
    (maxA : Int) (round : Nat) (s att c : Int) (prev : Option Int) (df : Table)
    (h : server round (some s) = .ok df) (hc : (df.length : Int) = c)
    (h0 : c ≠ 0) (hge : ¬ c < s) (hprev : prev = some c) :
    escalate server maxA round (some s) att prev = (some df, 1) := by
  subst hc
  rw [escalate, h]
  simp [h0, hge, hprev]

theorem escalate_budget (server : Nat → Option Int → RoundOutcome)
    (maxA : Int) (round : Nat) (s att c : Int) (prev : Option Int) (df : Table)
    (h : server round (some s) = .ok df) (hc : (df.length : Int) = c)
    (h0 : c ≠ 0) (hge : ¬ c < s) (hprev : prev ≠ some c) (hbud : maxA ≤ att + 1) :
    escalate server maxA round (some s) att prev = (some df, 1) := by
  subst hc
  rw [escalate, h]
  simp [h0, hge, hprev, hbud]

theorem escalate_continue (server : Nat → Option Int → RoundOutcome)
    (maxA : Int) (round : Nat) (s att c : Int) (prev : Option Int) (df : Table)
    (h : server round (some s) = .ok df) (hc : (df.length : Int) = c)
    (h0 : c ≠ 0) (hge : ¬ c < s) (hprev : prev ≠ some c) (hbud : att + 1 < maxA) :
    escalate server maxA round (some s) att prev =
      ((escalate server maxA (round + 1) (some (s * 2)) (att + 1) (some c)).1,
       (escalate server maxA (round + 1) (some (s * 2)) (att + 1) (some c)).2 + 1) := by
  subst hc
  rw [escalate, h]
  simp [h0, hge, hprev, not_le.mpr hbud]

theorem escalate_rounds_le (server : Nat → Option Int → RoundOutcome)
    (maxA : Int) (round : Nat) (sz : Option Int) (att : Int) (prev : Option Int) :
    ((escalate server maxA round sz att prev).2 : Int) ≤ 1 + (maxA - att - 1).toNat := by
  cases hsv : server round sz with
  | createFail =>
    rw [escalate_createFail server maxA round sz att prev hsv]
    simp
  | downloadFail =>
    rw [escalate_downloadFail server maxA round sz att prev hsv]
    simp
  | ok df =>
    cases sz with
    | none =>
      rw [escalate_noSize server maxA round att prev df hsv]
      simp
    | some s =>
      by_cases h0 : (df.length : Int) = 0
      · rw [escalate_complete server maxA round s att prev df hsv (Or.inl h0)]
        simp
      by_cases hlt : (df.length : Int) < s
      · rw [escalate_complete server maxA round s att prev df hsv (Or.inr hlt)]
        simp
      by_cases hprev : prev = some ((df.length : Int))
      · rw [escalate_antithrash server maxA round s att _ prev df hsv rfl h0 hlt hprev]
        simp
      by_cases hbud : maxA ≤ att + 1
      · rw [escalate_budget server maxA round s att _ prev df hsv rfl h0 hlt hprev hbud]
        simp
      · have hbud' : att + 1 < maxA := not_le.mp hbud
        rw [escalate_continue server maxA round s att _ prev df hsv rfl h0 hlt hprev hbud']
        have ih := escalate_rounds_le server maxA (round + 1) (some (s * 2)) (att + 1)
          (some ((df.length : Int)))
        simp only [Prod.snd] at ih ⊢
        push_cast at ih ⊢
        omega
termination_by (maxA - att).toNat
decreasing_by simp_wf; omega

theorem escalate_allfull_aux (server : Nat → Option Int → RoundOutcome)
    (m : Nat) (s0 : Int) (dfs : Nat → Table) (hs0 : 1 ≤ s0)
    (hresp : ∀ i, server i (some (s0 * 2 ^ i)) = .ok (dfs i))
    (hlen : ∀ i, ((dfs i).length : Int) = s0 * 2 ^ i)
    (j : Nat) (hj : j < m) (prev : Option Int) (hprev : prev ≠ some (s0 * 2 ^ j)) :
    escalate server (m : Int) j (some (s0 * 2 ^ j)) (j : Int) prev
      = (some (dfs (m - 1)), m - j) := by
  have hpow : (0 : Int) < s0 * 2 ^ j := by positivity
  by_cases hbud : (m : Int) ≤ (j : Int) + 1
  · rw [escalate_budget server (m : Int) j (s0 * 2 ^ j) (j : Int) (s0 * 2 ^ j) prev
        (dfs j) (hresp j) (hlen j) hpow.ne' (lt_irrefl _) hprev hbud]
    have hj1 : j = m - 1 := by omega
    simp only [Prod.mk.injEq]
    exact ⟨by rw [hj1], by omega⟩
  · have hbud' : (j : Int) + 1 < (m : Int) := not_le.mp hbud
    rw [escalate_continue server (m : Int) j (s0 * 2 ^ j) (j : Int) (s0 * 2 ^ j) prev
        (dfs j) (hresp j) (hlen j) hpow.ne' (lt_irrefl _) hprev hbud']
    have e2 : s0 * 2 ^ j * 2 = s0 * 2 ^ (j + 1) := by rw [pow_succ]; ring
    have ecast : (j : Int) + 1 = ((j + 1 : Nat) : Int) := by push_cast; ring
    have hmono : s0 * 2 ^ j < s0 * 2 ^ (j + 1) := by
      have : (2 : Int) ^ j < 2 ^ (j + 1) := by
        have := pow_lt_pow_right₀ (a := (2 : Int)) (by norm_num) (Nat.lt_succ_self j)
        exact this
      nlinarith
    have ih := escalate_allfull_aux server m s0 dfs hs0 hresp hlen (j + 1) (by omega)
      (some (s0 * 2 ^ j)) (by
        intro hcontra
        rw [Option.some.injEq] at hcontra
        exact hmono.ne hcontra)
    rw [e2, ecast, ih]
    have h2 : m - (j + 1) + 1 = m - j := by omega
    simp [h2]
termination_by m - j
decreasing_by simp_wf; omega

/-- C1: with a non-`None` size, any round whose download succeeds with zero
rows or strictly fewer rows than the currently requested size ends the loop
at that round, returning that table unchanged — a zero-row table is a
success, not `None`.  Stated for an arbitrary reachable loop state
(`round`, `att`, `prev`), so it covers every round of every call. -/
theorem c1_round_below_size_returns_table (server : Nat → Option Int → RoundOutcome)
    (maxA : Int) (round : Nat) (s att : Int) (prev : Option Int) (df : Table)
    (h : server round (some s) = .ok df)
    (hc : (df.length : Int) = 0 ∨ (df.length : Int) < s) :
    escalate server maxA round (some s) att prev = (some df, 1) :=
  escalate_complete server maxA round s att prev df h hc

/-- Witness for C1: a 1-row table against requested size 10 is returned
after a single round. -/
theorem c1_witness :
    escalate (fun _ _ => RoundOutcome.ok [Json.scalar 7]) 4 0 (some 10) 0 none
      = (some [Json.scalar 7], 1) :=
  c1_round_below_size_returns_table (fun _ _ => RoundOutcome.ok [Json.scalar 7])
    4 0 10 0 none [Json.scalar 7] rfl (Or.inr (by decide))

/-- C4: with `initial_size = None`, exactly one creation+download round
occurs — the payload factory is consulted with a `None` size hint
(`server 0 none`) — and whatever table that single download yields is
returned without escalation, whatever its row count. -/
theorem c4_none_size_single_round (server : Nat → Option Int → RoundOutcome)
    (maxA : Int) (df : Table) :
    escalationRounds server none maxA = 1 ∧
    (server 0 none = .ok df → download_with_size_escalation server none maxA = some df) := by
  constructor
  · unfold escalationRounds
    cases hsv : server 0 none with
    | createFail => rw [escalate_createFail _ _ _ _ _ _ hsv]
    | downloadFail => rw [escalate_downloadFail _ _ _ _ _ _ hsv]
    | ok df' => rw [escalate_noSize _ _ _ _ _ _ hsv]
  · intro h
    unfold download_with_size_escalation
    rw [escalate_noSize _ _ _ _ _ _ h]

/-- Witness for C4: a 1-row download with no explicit size is returned after
exactly one round. -/
theorem c4_witness :
    escalationRounds (fun _ _ => RoundOutcome.ok [Json.scalar 3]) none 4 = 1 ∧
    download_with_size_escalation (fun _ _ => RoundOutcome.ok [Json.scalar 3]) none 4
      = some [Json.scalar 3] :=
  ⟨(c4_none_size_single_round (fun _ _ => RoundOutcome.ok [Json.scalar 3]) 4
      [Json.scalar 3]).1,
   (c4_none_size_single_round (fun _ _ => RoundOutcome.ok [Json.scalar 3]) 4
      [Json.scalar 3]).2 rfl⟩

/-- C5: a creation response that is valid JSON but lacks `list_id` makes
`create_list` raise, the escalation loop catches the error, and the whole
fetch returns `None`; no exception escapes (the model is total). -/
theorem c5_missing_list_id_yields_none (responses : Nat → Option Int → RoundResponses)
    (initial : Option Int) (maxA : Int)
    (h : (responses 0 initial).create = .jsonBody none) :
    create_list (responses 0 initial).create = .error () ∧
    download_with_size_escalation_raw responses initial maxA = none := by
  have hcl : create_list (responses 0 initial).create = .error () := by
    rw [h]
    rfl
  refine ⟨hcl, ?_⟩
  unfold download_with_size_escalation_raw download_with_size_escalation
  have hrr : runRound (responses 0 initial) = .createFail := by
    unfold runRound
    rw [hcl]
  rw [escalate_createFail _ _ _ _ _ _ hrr]

/-- Witness for C5: a concrete creation response without `list_id` makes the
whole fetch return `None`. -/
theorem c5_witness :
    create_list (CreateResponse.jsonBody none) = .error () ∧
    download_with_size_escalation_raw
      (fun _ _ => ⟨CreateResponse.jsonBody none,
        ⟨true, [], CsvParse.emptyData, true, JsonFallback.decodeError⟩⟩)
      (some 10) 4 = none :=
  c5_missing_list_id_yields_none
    (fun _ _ => ⟨CreateResponse.jsonBody none,
      ⟨true, [], CsvParse.emptyData, true, JsonFallback.decodeError⟩⟩)
    (some 10) 4 rfl

/-- C6: an HTTP-successful download whose body is empty or has at most one
line (header only) yields an explicitly empty table, not an error. -/
theorem c6_header_only_empty_table (d : DownloadInput)
    (h1 : d.transportOk = true) (h2 : d.bodyLines.length ≤ 1) :
    download_list d = .ok [] := by
  unfold download_list
  rw [h1]
  simp [h2]

/-- Witness for C6: a successful response whose body is a lone header line
downloads as the empty table. -/
theorem c6_witness :
    download_list ⟨true, ["header"], CsvParse.parseError, true, JsonFallback.decodeError⟩
      = .ok [] :=
  c6_header_only_empty_table
    ⟨true, ["header"], CsvParse.parseError, true, JsonFallback.decodeError⟩ rfl (by decide)

/-- Counterexample to C2 as stated: with `initial_size = 0` and
`max_attempts = 2`, round 1 requests size 0 and the server returns exactly
0 rows — every round's download returns exactly the requested count — yet
the loop stops after 1 round (the `row_count == 0` branch), not at round
`max_attempts = 2`: the attempt counter is never incremented. -/
theorem c2_zero_size_counterexample :
    escalationRounds (fun _ _ => RoundOutcome.ok []) (some 0) 2 = 1 ∧
    escalationRounds (fun _ _ => RoundOutcome.ok []) (some 0) 2 ≠ 2 ∧
    download_with_size_escalation (fun _ _ => RoundOutcome.ok []) (some 0) 2 = some [] := by
  have h := escalate_complete (fun _ _ => RoundOutcome.ok []) 2 0 0 0 none [] rfl
    (Or.inl rfl)
  refine ⟨?_, ?_, ?_⟩ <;>
    simp [escalationRounds, download_with_size_escalation, h]

/-- C2 amended: provided `initial_size` is positive and `max_attempts ≥ 1`,
if every round's download returns exactly the currently requested number of
rows (round `i` requests `s0 * 2 ^ i`), the loop terminates at round
`max_attempts` and returns the table fetched in that last round, not `None`:
each such round increments the attempt counter and the loop returns the
current table once the counter reaches `max_attempts`. -/
theorem c2_allfull_terminates_at_budget (server : Nat → Option Int → RoundOutcome)
    (m : Nat) (s0 : Int) (dfs : Nat → Table) (hm : 1 ≤ m) (hs0 : 1 ≤ s0)
    (hresp : ∀ i, server i (some (s0 * 2 ^ i)) = .ok (dfs i))
    (hlen : ∀ i, ((dfs i).length : Int) = s0 * 2 ^ i) :
    download_with_size_escalation server (some s0) (m : Int) = some (dfs (m - 1)) ∧
    escalationRounds server (some s0) (m : Int) = m := by
  have h := escalate_allfull_aux server m s0 dfs hs0 hresp hlen 0 (by omega) none
    (by simp)
  simp only [pow_zero, mul_one, Nat.cast_zero, Nat.sub_zero] at h
  unfold download_with_size_escalation escalationRounds
  rw [h]
  exact ⟨rfl, rfl⟩

/-- Witness for C2 amended: sizes 1 then 2, each round returning exactly as
many rows as requested, terminate at round `max_attempts = 2` with the
round-2 table. -/
theorem c2_allfull_witness :
    download_with_size_escalation
      (fun i _ => RoundOutcome.ok (List.replicate (2 ^ i) (Json.scalar 0)))
      (some 1) ((2 : Nat) : Int) = some (List.replicate 2 (Json.scalar 0)) ∧
    escalationRounds
      (fun i _ => RoundOutcome.ok (List.replicate (2 ^ i) (Json.scalar 0)))
      (some 1) ((2 : Nat) : Int) = 2 :=
  c2_allfull_terminates_at_budget
    (fun i _ => RoundOutcome.ok (List.replicate (2 ^ i) (Json.scalar 0)))
    2 1 (fun i => List.replicate (2 ^ i) (Json.scalar 0))
    (by norm_num) (by norm_num) (fun i => rfl)
    (by intro i; push_cast [List.length_replicate]; ring)

/-- C3: if a truncation-signalling round continues the loop (doubling the
size) and the next round returns the identical row count while that count
equals the newly requested size (`c = s * 2`), the anti-thrash guard fires:
the loop terminates at that second round and returns its table, with no
constraint tying the second round to the attempt budget. -/
theorem c3_antithrash_second_round (server : Nat → Option Int → RoundOutcome)
    (maxA : Int) (round : Nat) (s att c : Int) (prev : Option Int) (df1 df2 : Table)
    (h1 : server round (some s) = .ok df1) (hc1 : (df1.length : Int) = c)
    (h2 : server (round + 1) (some (s * 2)) = .ok df2) (hc2 : (df2.length : Int) = c)
    (hs : 1 ≤ s) (hceq : c = s * 2) (hprev : prev ≠ some c) (hbud : att + 1 < maxA) :
    escalate server maxA round (some s) att prev = (some df2, 2) := by
  have h0 : c ≠ 0 := by omega
  have hge : ¬ c < s := by omega
  rw [escalate_continue server maxA round s att c prev df1 h1 hc1 h0 hge hprev hbud]
  rw [escalate_antithrash server maxA (round + 1) (s * 2) (att + 1) c (some c) df2 h2
    hc2 h0 (by omega) rfl]

/-- Witness for C3: requested size 1, two consecutive rounds of 2 rows each
(2 = the doubled size), with a budget of 4 — the loop stops after the second
round with its table. -/
theorem c3_witness :
    escalate
      (fun r _ => if r = 0 then RoundOutcome.ok [Json.scalar 0, Json.scalar 0]
        else RoundOutcome.ok [Json.scalar 1, Json.scalar 1])
      4 0 (some 1) 0 none = (some [Json.scalar 1, Json.scalar 1], 2) :=
  c3_antithrash_second_round
    (fun r _ => if r = 0 then RoundOutcome.ok [Json.scalar 0, Json.scalar 0]
      else RoundOutcome.ok [Json.scalar 1, Json.scalar 1])
    4 0 1 0 2 none [Json.scalar 0, Json.scalar 0] [Json.scalar 1, Json.scalar 1]
    rfl (by decide) rfl (by decide) (by decide) (by decide) (by decide) (by decide)

/-- C8: the MUC16 end-to-end scenario — `initial_size = 50000`, round 1
(hint 50,000) returns a 50,000-row table, the size doubles to 100,000, and
round 2 (hint 100,000) returns a 50,000-row table — terminates after round 2
and returns the table fetched in round 2. -/
theorem c8_muc16_scenario (server : Nat → Option Int → RoundOutcome) (df1 df2 : Table)
    (h1 : server 0 (some 50000) = .ok df1) (hl1 : df1.length = 50000)
    (h2 : server 1 (some 100000) = .ok df2) (hl2 : df2.length = 50000) :
    download_with_size_escalation server (some 50000) 4 = some df2 ∧
    escalationRounds server (some 50000) 4 = 2 := by
  have hc1 : (df1.length : Int) = 50000 := by rw [hl1]; norm_num
  have hc2 : (df2.length : Int) = 50000 := by rw [hl2]; norm_num
  have h2' : server (0 + 1) (some (50000 * 2)) = .ok df2 := by norm_num [h2]
  have s1 := escalate_continue server 4 0 50000 0 50000 none df1 h1 hc1
    (by norm_num) (by norm_num) (by simp) (by norm_num)
  have s2 := escalate_complete server 4 (0 + 1) (50000 * 2) (0 + 1) (some 50000) df2
    h2' (Or.inr (by rw [hc2]; norm_num))
  have hres : escalate server 4 0 (some 50000) 0 none = (some df2, 2) :=
    s1.trans (by rw [s2])
  exact ⟨congrArg Prod.fst hres, congrArg Prod.snd hres⟩

/-- Witness for C8: the concrete MUC16 server — 50,000 rows in round 1,
50,000 rows in round 2 after the doubling to 100,000 — stops after round 2
with round 2's table. -/
theorem c8_witness :
    download_with_size_escalation muc16Server (some 50000) 4
      = some (List.replicate 50000 (Json.scalar 1)) ∧
    escalationRounds muc16Server (some 50000) 4 = 2 :=
  c8_muc16_scenario muc16Server (List.replicate 50000 (Json.scalar 0))
    (List.replicate 50000 (Json.scalar 1)) rfl (by rw [List.length_replicate])
    rfl (by rw [List.length_replicate])

/-- C9: whatever the server does, the escalation loop executes at most
`max(1, max_attempts)` creation+download rounds — the only repeating path
increments the attempt counter, which is checked against `max_attempts`
before every repeat. -/
theorem c9_rounds_bounded (server : Nat → Option Int → RoundOutcome)
    (initial : Option Int) (maxA : Int) :
    (escalationRounds server initial maxA : Int) ≤ max 1 maxA := by
  have h := escalate_rounds_le server maxA 0 initial 0 none
  unfold escalationRounds
  omega

/-- Counterexample to C7 as stated: a JSON-fallback body parsing to `[1]` —
a list, but not a list-of-records (its element is a scalar, not a
row-mapping) — should abort per the claim, yet `download_list` only checks
`isinstance(parsed, list)` and converts it to a one-row table. -/
theorem c7_scalar_list_counterexample :
    isListOfRecords (Json.arr [Json.scalar 1]) = false ∧
    download_list ⟨true, ["header", "row"], CsvParse.parseError, true,
      JsonFallback.value (Json.arr [Json.scalar 1])⟩ = .ok [Json.scalar 1] :=
  ⟨rfl, rfl⟩

/-- C7 amended: after a CSV parse failure the same list is retried as JSON;
if that JSON body fails to decode, or parses to a value that is not a JSON
list (any list — even of non-record elements — is accepted and converted),
`download_list` aborts with an error, which the escalating fetch maps to
`None`. -/
theorem c7_json_fallback_failure_yields_none
    (responses : Nat → Option Int → RoundResponses) (initial : Option Int)
    (maxA : Int) (cid : String) (d : DownloadInput)
    (hd : (responses 0 initial).download = d)
    (ht : d.transportOk = true) (hb : 1 < d.bodyLines.length)
    (hcsv : d.csvParse = .parseError) (hjt : d.jsonTransportOk = true)
    (hjson : d.jsonFallback = .decodeError ∨
      ∃ v, d.jsonFallback = .value v ∧ ∀ es, v ≠ Json.arr es)
    (hcreate : create_list (responses 0 initial).create = .ok cid) :
    download_list d = .error () ∧
    download_with_size_escalation_raw responses initial maxA = none := by
  have hb' : ¬ d.bodyLines.length ≤ 1 := by omega
  have hdl : download_list d = .error () := by
    unfold download_list
    rw [ht, hjt, hcsv]
    rcases hjson with hj | ⟨v, hj, hv⟩
    · simp [hb', hj]
    · rcases v with n | fl | es
      · simp [hb', hj]
      · simp [hb', hj]
      · exact absurd rfl (hv es)
  refine ⟨hdl, ?_⟩
  unfold download_with_size_escalation_raw download_with_size_escalation
  have hrr : runRound (responses 0 initial) = .downloadFail := by
    unfold runRound
    rw [hcreate, hd, hdl]
  rw [escalate_downloadFail _ _ _ _ _ _ hrr]

/-- Witness for C7 amended: creation succeeds, the CSV parse fails, and the
JSON fallback parses to a bare object (not a list): the download aborts and
the fetch returns `None`. -/
theorem c7_witness :
    download_list ⟨true, ["header", "row"], CsvParse.parseError, true,
      JsonFallback.value (Json.obj [("a", 1)])⟩ = .error () ∧
    download_with_size_escalation_raw
      (fun _ _ => ⟨CreateResponse.jsonBody (some "id1"),
        ⟨true, ["header", "row"], CsvParse.parseError, true,
          JsonFallback.value (Json.obj [("a", 1)])⟩⟩)
      (some 10) 4 = none :=
  c7_json_fallback_failure_yields_none
    (fun _ _ => ⟨CreateResponse.jsonBody (some "id1"),
      ⟨true, ["header", "row"], CsvParse.parseError, true,
        JsonFallback.value (Json.obj [("a", 1)])⟩⟩)
    (some 10) 4 "id1"
    ⟨true, ["header", "row"], CsvParse.parseError, true,
      JsonFallback.value (Json.obj [("a", 1)])⟩
    rfl rfl (by decide) rfl rfl
    (Or.inr ⟨Json.obj [("a", 1)], rfl, fun es h => Json.noConfusion h⟩)
    rfl

/-- Counterexample to C10 as stated: with requested size `-1` the server's
0-row answer strictly exceeds the requested size, the previous row count is
`None` (so the anti-thrash guard cannot fire) and `attempts + 1 = 1 < 4`
(so the attempt budget is not hit), hence the claim mandates a doubling
retry (at least 2 rounds); the code instead returns the table after a
single round through the `row_count == 0` "complete" branch. -/
theorem c10_zero_exceeds_negative_counterexample :
    ((([] : Table).length : Int) > -1) ∧
    escalationRounds (fun _ _ => RoundOutcome.ok []) (some (-1)) 4 = 1 ∧
    download_with_size_escalation (fun _ _ => RoundOutcome.ok []) (some (-1)) 4
      = some [] := by
  have h := escalate_complete (fun _ _ => RoundOutcome.ok []) 4 0 (-1) 0 none [] rfl
    (Or.inl rfl)
  refine ⟨by norm_num, ?_, ?_⟩ <;>
    simp [escalationRounds, download_with_size_escalation, h]

/-- C10 amended: provided the requested size is nonnegative, a round whose
row count strictly exceeds the requested size is handled exactly like the
equal case — return via the anti-thrash guard, return via the attempt
budget, or double the size and retry — never as a complete result. -/
theorem c10_overfull_truncation_path (server : Nat → Option Int → RoundOutcome)
    (maxA : Int) (round : Nat) (s att c : Int) (prev : Option Int) (df : Table)
    (h : server round (some s) = .ok df) (hc : (df.length : Int) = c)
    (hpos : 0 ≤ s) (hover : s < c) :
    escalate server maxA round (some s) att prev
      = (if prev = some c then (some df, 1)
         else if maxA ≤ att + 1 then (some df, 1)
         else ((escalate server maxA (round + 1) (some (s * 2)) (att + 1) (some c)).1,
               (escalate server maxA (round + 1) (some (s * 2)) (att + 1) (some c)).2
                 + 1)) := by
  have h0 : c ≠ 0 := by omega
  have hge : ¬ c < s := by omega
  by_cases hprev : prev = some c
  · rw [escalate_antithrash server maxA round s att c prev df h hc h0 hge hprev,
      if_pos hprev]
  · rw [if_neg hprev]
    by_cases hbud : maxA ≤ att + 1
    · rw [escalate_budget server maxA round s att c prev df h hc h0 hge hprev hbud,
        if_pos hbud]
    · rw [escalate_continue server maxA round s att c prev df h hc h0 hge hprev
        (not_le.mp hbud), if_neg hbud]

/-- Witness for C10 amended: 2 rows against requested size 1 with the
attempt budget already spent (`att = 3`, `maxA = 4`): the round is treated
as truncation and returns through the budget guard, after one round. -/
theorem c10_witness :
    escalate (fun _ _ => RoundOutcome.ok [Json.scalar 0, Json.scalar 0]) 4 0 (some 1)
      3 none = (some [Json.scalar 0, Json.scalar 0], 1) := by
  have h := c10_overfull_truncation_path
    (fun _ _ => RoundOutcome.ok [Json.scalar 0, Json.scalar 0]) 4 0 1 3 2 none
    [Json.scalar 0, Json.scalar 0] rfl (by decide) (by norm_num) (by norm_num)
  rw [h]
  simp

end BKB
